import Mathlib

/-!
Shallow embedding of `src/app.py` (paceconverter): the pure conversion
functions of class `PaceConverter`, the race-time splitting done by the
request handlers, and the three string validators of class `InputValidator`.

Modelling conventions:
* Python `float` values are modelled as exact rationals `ℚ`; Python `int`
  as `ℤ`.
* Python `int(x)` on a finite float truncates toward zero: `pyInt`.
* Python `//` and `%` on floats are floor division and the matching
  modulus: `pyFloorDiv`, `pyMod`.
* Python strings are Lean `String`s; `str.isdigit` is modelled by the
  ASCII `Char.isDigit`, `str.strip()` by `pyStrip`.
* A possibly-absent form field (`None` in Python) is an `Option String`.
-/

/-- Python `int(q)` on a finite float: truncation toward zero. -/
def pyInt (q : ℚ) : ℤ := if 0 ≤ q then ⌊q⌋ else ⌈q⌉

/-- Python float floor-division `a // b`. -/
def pyFloorDiv (a b : ℚ) : ℚ := (⌊a / b⌋ : ℤ)

/-- Python float modulus `a % b` (`a - b * (a // b)`, sign of `b`). -/
def pyMod (a b : ℚ) : ℚ := a - b * pyFloorDiv a b

/-- The static distance table `RACE_DISTANCES` of `src/app.py` (km per key),
in source order. -/
def RACE_DISTANCES : List (String × ℚ) :=
  [("onek", 1.0), ("threek", 3.0), ("fivek", 5.0), ("tenk", 10.0),
   ("twentyk", 20.0), ("half", 21.0975), ("marathon", 42.195),
   ("hundredk", 100.0)]

/-- `PaceConverter.minutes_per_km_to_km_per_hour` (src/app.py:32-38). -/
def minutes_per_km_to_km_per_hour (minutes seconds : ℤ) : ℚ :=
  if minutes = 0 ∧ seconds = 0 then 0
  else
    let total_minutes : ℚ := (minutes : ℚ) + (seconds : ℚ) / 60
    60 / total_minutes

/-- `PaceConverter.minutes_per_km_to_km_per_hour` (src/app.py:32-38) with
its error path made explicit: off the (0,0) sentinel the source computes
`60.0 / total_minutes` with no guard, so when `minutes + seconds/60 = 0`
with (minutes, seconds) ≠ (0,0) — e.g. (1, -60) — Python raises an
uncaught `ZeroDivisionError`; `none` models that raise. (The converters'
other raise paths, `OverflowError` via `int(inf)` or an int too large for
a float, exist only for floating point and have no counterpart in the
exact-rational model.) -/
def minutes_per_km_to_km_per_hour_checked (minutes seconds : ℤ) :
    Option ℚ :=
  if minutes = 0 ∧ seconds = 0 then some 0
  else
    let total_minutes : ℚ := (minutes : ℚ) + (seconds : ℚ) / 60
    if total_minutes = 0 then none
    else some (60 / total_minutes)

/-- `PaceConverter.km_per_hour_to_minutes_per_km` (src/app.py:40-49). -/
def km_per_hour_to_minutes_per_km (pace : ℚ) : ℤ × ℤ :=
  if pace ≤ 0 then (0, 0)
  else
    let total_minutes : ℚ := 60 / pace
    let minutes : ℤ := pyInt total_minutes
    let seconds : ℤ := pyInt ((total_minutes - (minutes : ℚ)) * 60)
    (minutes, seconds)

/-- The local `format_time` helper of `PaceConverter.calculate_race_times`
(src/app.py:59-64). -/
def format_time (total_seconds : ℚ) : String :=
  let hours : ℤ := pyInt (pyFloorDiv total_seconds 3600)
  let remaining_seconds : ℚ := pyMod total_seconds 3600
  let mins : ℤ := pyInt (pyFloorDiv remaining_seconds 60)
  let secs : ℤ := pyInt (pyMod remaining_seconds 60)
  s!"{hours}h{mins}min{secs}s"

/-- `PaceConverter.calculate_race_times` (src/app.py:51-77); the returned
dict is modelled as an association list in insertion order. -/
def calculate_race_times (minutes seconds : ℤ) (custom_distance : ℚ := 0) :
    List (String × String) :=
  if minutes = 0 ∧ seconds = 0 then
    RACE_DISTANCES.map (fun kv => (kv.1, "0h0min0s"))
  else
    let total_seconds_per_km : ℚ := ((minutes * 60 + seconds : ℤ) : ℚ)
    RACE_DISTANCES.map
      (fun kv => (kv.1, format_time (total_seconds_per_km * kv.2)))
    ++ [("custom",
         if 0 < custom_distance then
           format_time (total_seconds_per_km * custom_distance)
         else "0h0min0s")]

/-- `PaceConverter.race_time_to_pace` (src/app.py:79-95). -/
def race_time_to_pace (race_distance : String)
    (hours minutes seconds : ℤ) : ℤ × ℤ :=
  match List.lookup race_distance RACE_DISTANCES with
  | none => (0, 0)
  | some distance_km =>
    let total_race_seconds : ℤ := hours * 3600 + minutes * 60 + seconds
    if total_race_seconds ≤ 0 ∨ distance_km ≤ 0 then (0, 0)
    else
      let seconds_per_km : ℚ := (total_race_seconds : ℚ) / distance_km
      (pyInt (pyFloorDiv seconds_per_km 60), pyInt (pyMod seconds_per_km 60))

/-- The race-time splitting performed by the request handlers
(src/app.py:279-282): hours, then minutes of the remainder, then whole
seconds, each by truncating division. -/
def split_race_time (total_race_seconds : ℚ) : ℤ × ℤ × ℤ :=
  (pyInt (pyFloorDiv total_race_seconds 3600),
   pyInt (pyFloorDiv (pyMod total_race_seconds 3600) 60),
   pyInt (pyMod total_race_seconds 60))

/-- The claim-level composite for C2: compute the exact total race time of
pace (m, s) over distance d, split it as the handlers do, and feed the
triple back through `race_time_to_pace`. -/
def race_roundtrip_result (key : String) (d : ℚ) (m s : ℤ) : ℤ × ℤ :=
  let t := split_race_time (((m * 60 + s : ℤ) : ℚ) * d)
  race_time_to_pace key t.1 t.2.1 t.2.2

/-- Numeric value of a run of decimal digit characters, most significant
first (helper for `parsePyFloat`). -/
def digitsVal (cs : List Char) : ℕ :=
  cs.foldl (fun a c => 10 * a + (c.toNat - 48)) 0

/-- Python `float(s)` restricted to the character set the validators admit
(digits, '.', '-'): an optional leading minus sign, then digits holding at
most one decimal point and at least one digit. `none` models the
`ValueError` that the validators catch. -/
def parsePyFloat (s : String) : Option ℚ :=
  let cs := s.toList
  let signSplit : Bool × List Char :=
    match cs with
    | '-' :: rest => (true, rest)
    | _ => (false, cs)
  let chunks := signSplit.2.splitOn '.'
  let magnitude : Option ℚ :=
    match chunks with
    | [intPart] =>
      if intPart ≠ [] ∧ intPart.all Char.isDigit then
        some (digitsVal intPart : ℚ)
      else none
    | [intPart, fracPart] =>
      if (intPart ≠ [] ∨ fracPart ≠ []) ∧ intPart.all Char.isDigit ∧
          fracPart.all Char.isDigit then
        some ((digitsVal intPart : ℚ) +
          (digitsVal fracPart : ℚ) / (10 : ℚ) ^ fracPart.length)
      else none
    | _ => none
  magnitude.map (fun m => if signSplit.1 then -m else m)

/-- Python `s.strip()`: remove leading and trailing whitespace. -/
def pyStrip (s : String) : String :=
  ⟨((s.data.dropWhile Char.isWhitespace).reverse.dropWhile
      Char.isWhitespace).reverse⟩

/-- The sanitisation at the top of every validator, `str(x or "0").strip()`:
a `None` or empty field falls back to `"0"` BEFORE whitespace is stripped. -/
def sanitize_field (x : Option String) : String :=
  pyStrip (match x with
           | none => "0"
           | some s => if s = "" then "0" else s)

/-- The per-character filter of the validators:
`c.isdigit() or c in '.-'` (src/app.py:110). -/
def allowedChar (c : Char) : Bool := c.isDigit || c = '.' || c = '-'

/-- `InputValidator.validate_pace_input` (src/app.py:100-136). -/
def validate_pace_input (minutes_str seconds_str : Option String) :
    Bool × Option (ℤ × ℤ) × String :=
  let ms := sanitize_field minutes_str
  let ss := sanitize_field seconds_str
  if ¬ ms.toList.all allowedChar then
    (false, none, "Minutes must be a valid number")
  else if ¬ ss.toList.all allowedChar then
    (false, none, "Seconds must be a valid number")
  else if 1 < ms.toList.count '.' ∨ 1 < ms.toList.count '-' then
    (false, none, "Minutes must be a valid number")
  else if 1 < ss.toList.count '.' ∨ 1 < ss.toList.count '-' then
    (false, none, "Seconds must be a valid number")
  else
    match parsePyFloat ms, parsePyFloat ss with
    | some mq, some sq =>
      let minutes := pyInt mq
      let seconds := pyInt sq
      if minutes < 0 ∨ seconds < 0 then
        (false, none, "Minutes and seconds must be non-negative")
      else if 60 ≤ seconds then
        (false, none, "Seconds must be less than 60")
      else if 120 < minutes then
        (false, none, "Minutes seems unreasonably high (>120)")
      else if minutes = 0 ∧ seconds = 0 then
        (false, none, "Pace cannot be zero - please enter a valid pace")
      else (true, some (minutes, seconds), "")
    | _, _ => (false, none, "Invalid input: please enter valid numbers")

/-- `InputValidator.validate_speed_input` (src/app.py:138-164). -/
def validate_speed_input (speed_str : Option String) :
    Bool × Option ℚ × String :=
  let sp := sanitize_field speed_str
  if ¬ sp.toList.all allowedChar then
    (false, none, "Speed must be a valid number")
  else if 1 < sp.toList.count '.' ∨ 1 < sp.toList.count '-' then
    (false, none, "Speed must be a valid number")
  else
    match parsePyFloat sp with
    | some speed =>
      if speed ≤ 0 then
        (false, none, "Speed must be positive")
      else if 50 < speed then
        (false, none, "Speed seems unreasonably high (>50 km/h)")
      else (true, some speed, "")
    | none => (false, none, "Invalid input: please enter a valid number")

/-- `InputValidator.validate_race_time_input` (src/app.py:166-208). -/
def validate_race_time_input (hours_str minutes_str seconds_str : Option String) :
    Bool × Option (ℤ × ℤ × ℤ) × String :=
  let hs := sanitize_field hours_str
  let ms := sanitize_field minutes_str
  let ss := sanitize_field seconds_str
  if ¬ hs.toList.all allowedChar then
    (false, none, "Hours must be a valid number")
  else if ¬ ms.toList.all allowedChar then
    (false, none, "Minutes must be a valid number")
  else if ¬ ss.toList.all allowedChar then
    (false, none, "Seconds must be a valid number")
  else if 1 < hs.toList.count '.' ∨ 1 < hs.toList.count '-' then
    (false, none, "Hours must be a valid number")
  else if 1 < ms.toList.count '.' ∨ 1 < ms.toList.count '-' then
    (false, none, "Minutes must be a valid number")
  else if 1 < ss.toList.count '.' ∨ 1 < ss.toList.count '-' then
    (false, none, "Seconds must be a valid number")
  else
    match parsePyFloat hs, parsePyFloat ms, parsePyFloat ss with
    | some hq, some mq, some sq =>
      let hours := pyInt hq
      let minutes := pyInt mq
      let seconds := pyInt sq
      if hours < 0 ∨ minutes < 0 ∨ seconds < 0 then
        (false, none, "Time values must be non-negative")
      else if 60 ≤ minutes ∨ 60 ≤ seconds then
        (false, none, "Minutes and seconds must be less than 60")
      else if 12 < hours then
        (false, none, "Race time seems unreasonably long (>12 hours)")
      else if hours = 0 ∧ minutes = 0 ∧ seconds = 0 then
        (false, none, "Please enter a valid race time")
      else (true, some (hours, minutes, seconds), "")
    | _, _, _ => (false, none, "Invalid input: please enter valid numbers")

/-- A validator outcome that reports a rejection: not valid, no value, and
a non-empty human-readable error message. -/
def isRejection {α : Type} (r : Bool × Option α × String) : Prop :=
  r.1 = false ∧ r.2.1 = none ∧ r.2.2 ≠ ""

instance {α : Type} [DecidableEq α] (r : Bool × Option α × String) :
    Decidable (isRejection r) :=
  inferInstanceAs (Decidable (_ ∧ _ ∧ _))

/-! ### Basic facts about the Python arithmetic primitives -/

theorem pyInt_intCast (z : ℤ) : pyInt (z : ℚ) = z := by
  unfold pyInt
  split
  · exact Int.floor_intCast z
  · exact Int.ceil_intCast z

theorem pyInt_of_nonneg {q : ℚ} (h : 0 ≤ q) : pyInt q = ⌊q⌋ := if_pos h

theorem pyInt_pyFloorDiv (a b : ℚ) : pyInt (pyFloorDiv a b) = ⌊a / b⌋ := by
  rw [pyFloorDiv, pyInt_intCast]

theorem pyMod_nonneg (a : ℚ) {b : ℚ} (hb : 0 < b) : 0 ≤ pyMod a b := by
  unfold pyMod pyFloorDiv
  have h : b * ((⌊a / b⌋ : ℤ) : ℚ) ≤ a := by
    calc b * ((⌊a / b⌋ : ℤ) : ℚ) ≤ b * (a / b) :=
          mul_le_mul_of_nonneg_left (Int.floor_le (a / b)) hb.le
    _ = a := by field_simp
  linarith

theorem pyMod_lt (a : ℚ) {b : ℚ} (hb : 0 < b) : pyMod a b < b := by
  unfold pyMod pyFloorDiv
  have h : a < b * ((⌊a / b⌋ : ℤ) : ℚ) + b := by
    have h1 : a / b < (⌊a / b⌋ : ℚ) + 1 := Int.lt_floor_add_one (a / b)
    have h2 : b * (a / b) < b * ((⌊a / b⌋ : ℚ) + 1) :=
      mul_lt_mul_of_pos_left h1 hb
    have h3 : b * (a / b) = a := by field_simp
    rw [h3, mul_add, mul_one] at h2
    exact h2
  linarith

/-- `int(a % 60)` is `⌊a⌋ - 60 * ⌊a / 60⌋`. -/
theorem pyInt_pyMod_sixty (a : ℚ) : pyInt (pyMod a 60) = ⌊a⌋ - 60 * ⌊a / 60⌋ := by
  rw [pyInt_of_nonneg (pyMod_nonneg a (by norm_num))]
  have h : pyMod a 60 = a - ((60 * ⌊a / 60⌋ : ℤ) : ℚ) := by
    unfold pyMod pyFloorDiv
    push_cast
    ring
  rw [h, Int.floor_sub_int]

/-- The handler's hours/minutes/seconds split recombines to the floor of
the total number of seconds. -/
theorem split_race_time_sum (T : ℚ) :
    (split_race_time T).1 * 3600 + (split_race_time T).2.1 * 60 +
      (split_race_time T).2.2 = ⌊T⌋ := by
  unfold split_race_time
  simp only [pyInt_pyFloorDiv, pyInt_pyMod_sixty]
  have hmi : ⌊pyMod T 3600 / 60⌋ = ⌊T / 60⌋ - 60 * ⌊T / 3600⌋ := by
    have h : pyMod T 3600 / 60 = T / 60 - ((60 * ⌊T / 3600⌋ : ℤ) : ℚ) := by
      unfold pyMod pyFloorDiv
      push_cast
      ring
    rw [h, Int.floor_sub_int]
  rw [hmi]
  ring

/-! ### C8: pace (min/km) to speed (km/h) -/

/-- Claim C8: `minutes_per_km_to_km_per_hour` returns 0 on the (0,0)
sentinel and otherwise `60 / (minutes + seconds/60)`; in particular a
5:00 min/km pace is 12 km/h. -/
theorem claim_C8_pace_to_speed :
    (∀ m s : ℤ, ¬(m = 0 ∧ s = 0) →
      minutes_per_km_to_km_per_hour m s = 60 / ((m : ℚ) + (s : ℚ) / 60)) ∧
    minutes_per_km_to_km_per_hour 0 0 = 0 ∧
    minutes_per_km_to_km_per_hour 5 0 = 12 := by
  refine ⟨fun m s h => ?_, by norm_num [minutes_per_km_to_km_per_hour],
    by norm_num [minutes_per_km_to_km_per_hour]⟩
  unfold minutes_per_km_to_km_per_hour
  rw [if_neg h]

/-- Witness for C8 at pace 4:30 min/km. -/
theorem claim_C8_pace_to_speed_witness :
    minutes_per_km_to_km_per_hour 4 30 = 60 / ((4 : ℚ) + (30 : ℚ) / 60) :=
  claim_C8_pace_to_speed.1 4 30 (by decide)

/-! ### C7: speed (km/h) to pace (min/km) -/

/-- Claim C7: `km_per_hour_to_minutes_per_km` returns (0,0) for every
non-positive speed; for a positive speed it returns minutes `⌊60/speed⌋`
and seconds `⌊(60/speed - minutes) * 60⌋` (truncation, not rounding), so
the returned pace, read in seconds, understates the true pace
`60 * (60/speed)` by less than one second and never overstates it; in
particular 12 km/h gives (5, 0). -/
theorem claim_C7_speed_to_pace :
    (∀ pace : ℚ, pace ≤ 0 → km_per_hour_to_minutes_per_km pace = (0, 0)) ∧
    (∀ pace : ℚ, 0 < pace →
      km_per_hour_to_minutes_per_km pace =
        (⌊60 / pace⌋, ⌊(60 / pace - (⌊60 / pace⌋ : ℚ)) * 60⌋) ∧
      0 ≤ 60 * (60 / pace) -
          ((⌊60 / pace⌋ * 60 + ⌊(60 / pace - (⌊60 / pace⌋ : ℚ)) * 60⌋ : ℤ) : ℚ) ∧
      60 * (60 / pace) -
          ((⌊60 / pace⌋ * 60 + ⌊(60 / pace - (⌊60 / pace⌋ : ℚ)) * 60⌋ : ℤ) : ℚ) < 1) ∧
    km_per_hour_to_minutes_per_km 12 = (5, 0) := by
  refine ⟨fun pace h => ?_, fun pace h => ?_, ?_⟩
  · unfold km_per_hour_to_minutes_per_km
    rw [if_pos h]
  · have ht : (0 : ℚ) < 60 / pace := div_pos (by norm_num) h
    have hmins : pyInt (60 / pace) = ⌊60 / pace⌋ := pyInt_of_nonneg ht.le
    have hfr : (0 : ℚ) ≤ (60 / pace - (⌊60 / pace⌋ : ℚ)) * 60 :=
      mul_nonneg (by linarith [Int.floor_le (60 / pace)]) (by norm_num)
    have heq : km_per_hour_to_minutes_per_km pace =
        (⌊60 / pace⌋, ⌊(60 / pace - (⌊60 / pace⌋ : ℚ)) * 60⌋) := by
      unfold km_per_hour_to_minutes_per_km
      rw [if_neg (not_le.mpr h)]
      show (pyInt (60 / pace),
        pyInt ((60 / pace - (pyInt (60 / pace) : ℚ)) * 60)) = _
      rw [hmins, pyInt_of_nonneg hfr]
    refine ⟨heq, ?_, ?_⟩ <;>
    · have hsecs : ⌊(60 / pace - (⌊60 / pace⌋ : ℚ)) * 60⌋ =
          ⌊60 * (60 / pace)⌋ - 60 * ⌊60 / pace⌋ := by
        have h1 : (60 / pace - (⌊60 / pace⌋ : ℚ)) * 60 =
            60 * (60 / pace) - ((60 * ⌊60 / pace⌋ : ℤ) : ℚ) := by
          push_cast
          ring
        rw [h1, Int.floor_sub_int]
      rw [hsecs]
      push_cast
      have hfl := Int.floor_le (60 * (60 / pace))
      have hfu := Int.lt_floor_add_one (60 * (60 / pace))
      linarith

  · rw [show km_per_hour_to_minutes_per_km 12 =
      (pyInt (60 / 12), pyInt ((60 / 12 - (pyInt ((60 : ℚ) / 12) : ℚ)) * 60))
      from if_neg (by norm_num)]
    norm_num [pyInt]

/-- Witness for C7 at the non-positive speed -1. -/
theorem claim_C7_speed_to_pace_witness :
    km_per_hour_to_minutes_per_km (-1) = (0, 0) :=
  claim_C7_speed_to_pace.1 (-1) (by norm_num)

/-! ### C6: out-of-domain inputs give zeros; the raise-free clause fails -/

/-- Counterexample to C6: the converter functions are NOT raise-free. At
the integer input (minutes, seconds) = (1, -60) the source's
`minutes_per_km_to_km_per_hour` reaches `60.0 / total_minutes` with
`total_minutes = 1 + (-60)/60 = 0.0` and raises an uncaught
`ZeroDivisionError`, modelled by `none` in the checked embedding. -/
theorem claim_C6_counterexample :
    minutes_per_km_to_km_per_hour_checked 1 (-60) = none := by
  norm_num [minutes_per_km_to_km_per_hour_checked]

/-- Off the (0,0) sentinel, a non-negative pace has a positive total of
minutes. -/
theorem pace_total_pos (m s : ℤ) (hm : 0 ≤ m) (hs : 0 ≤ s)
    (hne : ¬(m = 0 ∧ s = 0)) : (0 : ℚ) < (m : ℚ) + (s : ℚ) / 60 := by
  have hZ : (0 : ℤ) < 60 * m + s := by omega
  have hQ : (0 : ℚ) < ((60 * m + s : ℤ) : ℚ) := by exact_mod_cast hZ
  have hEq : (m : ℚ) + (s : ℚ) / 60 = ((60 * m + s : ℤ) : ℚ) / 60 := by
    push_cast
    ring
  rw [hEq]
  positivity

/-- Amended C6: the out-of-domain zero-mappings hold — `race_time_to_pace`
returns (0,0) for an unknown distance key or a non-positive total time,
and `km_per_hour_to_minutes_per_km` returns (0,0) for every speed ≤ 0 —
but the converters are not raise-free in general:
`minutes_per_km_to_km_per_hour` raises (returns `none` in the checked
embedding) exactly when the total `minutes + seconds/60` is 0 off the
(0,0) sentinel, and on non-negative inputs it never raises and agrees
with the total model. -/
theorem claim_C6_out_of_domain_zero_amended :
    (∀ key : String, ∀ h m s : ℤ, List.lookup key RACE_DISTANCES = none →
      race_time_to_pace key h m s = (0, 0)) ∧
    (∀ key : String, ∀ h m s : ℤ, h * 3600 + m * 60 + s ≤ 0 →
      race_time_to_pace key h m s = (0, 0)) ∧
    (∀ pace : ℚ, pace ≤ 0 → km_per_hour_to_minutes_per_km pace = (0, 0)) ∧
    (∀ m s : ℤ, ¬(m = 0 ∧ s = 0) →
      ((m : ℚ) + (s : ℚ) / 60 = 0 ↔
        minutes_per_km_to_km_per_hour_checked m s = none)) ∧
    (∀ m s : ℤ, 0 ≤ m → 0 ≤ s →
      minutes_per_km_to_km_per_hour_checked m s =
        some (minutes_per_km_to_km_per_hour m s)) := by
  refine ⟨fun key h m s hk => ?_, fun key h m s htot => ?_,
    fun pace hp => ?_, fun m s hne => ?_, fun m s hm hs => ?_⟩
  · unfold race_time_to_pace
    rw [hk]
  · unfold race_time_to_pace
    cases hl : List.lookup key RACE_DISTANCES with
    | none => rfl
    | some d =>
      show (if h * 3600 + m * 60 + s ≤ 0 ∨ d ≤ 0 then ((0 : ℤ), (0 : ℤ))
        else _) = (0, 0)
      rw [if_pos (Or.inl htot)]
  · unfold km_per_hour_to_minutes_per_km
    rw [if_pos hp]
  · unfold minutes_per_km_to_km_per_hour_checked
    rw [if_neg hne]
    constructor
    · intro h0
      rw [if_pos h0]
    · intro hnone
      by_contra h0
      rw [if_neg h0] at hnone
      exact Option.some_ne_none _ hnone
  · by_cases hne : m = 0 ∧ s = 0
    · unfold minutes_per_km_to_km_per_hour_checked minutes_per_km_to_km_per_hour
      rw [if_pos hne, if_pos hne]
    · have hpos := pace_total_pos m s hm hs hne
      unfold minutes_per_km_to_km_per_hour_checked minutes_per_km_to_km_per_hour
      rw [if_neg hne, if_neg hne, if_neg (ne_of_gt hpos)]

/-- Witness for the amended C6: an unknown key maps to (0,0), and at the
valid pace (5, 30) the checked embedding does not raise and agrees with
the total model. -/
theorem claim_C6_out_of_domain_zero_amended_witness :
    race_time_to_pace "notakey" 1 2 3 = (0, 0) ∧
    minutes_per_km_to_km_per_hour_checked 5 30 =
      some (minutes_per_km_to_km_per_hour 5 30) :=
  ⟨claim_C6_out_of_domain_zero_amended.1 "notakey" 1 2 3 rfl,
   claim_C6_out_of_domain_zero_amended.2.2.2.2 5 30 (by norm_num)
     (by norm_num)⟩

/-! ### C1: pace -> speed -> pace roundtrip -/

/-- Claim C1: for minutes in [0,120] and seconds in [0,60) other than the
(0,0) sentinel, converting the pace to km/h and back reproduces the pace
exactly (so the truncation error is 0 ≤ 1 second and the result is never
above the input pace); the (0,0) sentinel maps to speed 0. -/
theorem claim_C1_pace_speed_roundtrip :
    (∀ m s : ℤ, 0 ≤ m → m ≤ 120 → 0 ≤ s → s < 60 → ¬(m = 0 ∧ s = 0) →
      km_per_hour_to_minutes_per_km (minutes_per_km_to_km_per_hour m s) =
        (m, s)) ∧
    minutes_per_km_to_km_per_hour 0 0 = 0 := by
  constructor
  · intro m s hm _hm120 hs hs60 hne
    have hDpos : (0 : ℚ) < (m : ℚ) + (s : ℚ) / 60 := by
      have hZ : (0 : ℤ) < 60 * m + s := by omega
      have hQ : (0 : ℚ) < ((60 * m + s : ℤ) : ℚ) := by exact_mod_cast hZ
      have hEq : (m : ℚ) + (s : ℚ) / 60 = ((60 * m + s : ℤ) : ℚ) / 60 := by
        push_cast
        ring
      rw [hEq]
      positivity
    have hpace : minutes_per_km_to_km_per_hour m s =
        60 / ((m : ℚ) + (s : ℚ) / 60) := by
      unfold minutes_per_km_to_km_per_hour
      rw [if_neg hne]
    have hppos : (0 : ℚ) < 60 / ((m : ℚ) + (s : ℚ) / 60) :=
      div_pos (by norm_num) hDpos
    rw [hpace]
    unfold km_per_hour_to_minutes_per_km
    rw [if_neg (not_le.mpr hppos)]
    show (pyInt (60 / (60 / ((m : ℚ) + (s : ℚ) / 60))),
      pyInt ((60 / (60 / ((m : ℚ) + (s : ℚ) / 60)) -
        (pyInt (60 / (60 / ((m : ℚ) + (s : ℚ) / 60))) : ℚ)) * 60)) = (m, s)
    have htot : 60 / (60 / ((m : ℚ) + (s : ℚ) / 60)) =
        (m : ℚ) + (s : ℚ) / 60 := by
      field_simp
      ring
    rw [htot]
    have hfloorD : pyInt ((m : ℚ) + (s : ℚ) / 60) = m := by
      rw [pyInt_of_nonneg hDpos.le]
      have h1 : ⌊(m : ℚ) + (s : ℚ) / 60⌋ = m + ⌊(s : ℚ) / 60⌋ :=
        Int.floor_int_add m _
      have h2 : ⌊(s : ℚ) / 60⌋ = 0 := by
        apply Int.floor_eq_zero_iff.mpr
        constructor
        · positivity
        · rw [div_lt_one (by norm_num)]
          exact_mod_cast hs60
      rw [h1, h2, add_zero]
    rw [hfloorD]
    have harg : ((m : ℚ) + (s : ℚ) / 60 - (m : ℚ)) * 60 = ((s : ℤ) : ℚ) := by
      ring
    rw [harg, pyInt_intCast]
  · norm_num [minutes_per_km_to_km_per_hour]

/-- Witness for C1 at pace 5:30 min/km. -/
theorem claim_C1_pace_speed_roundtrip_witness :
    km_per_hour_to_minutes_per_km (minutes_per_km_to_km_per_hour 5 30) =
      (5, 30) :=
  claim_C1_pace_speed_roundtrip.1 5 30 (by norm_num) (by norm_num)
    (by norm_num) (by norm_num) (by decide)

/-! ### C2: race time -> pace roundtrip -/

/-- Every distance in the static table is at least 1 km. -/
theorem race_distances_ge_one (key : String) (d : ℚ)
    (hk : List.lookup key RACE_DISTANCES = some d) : 1 ≤ d := by
  simp only [RACE_DISTANCES, List.lookup] at hk
  repeat' split at hk
  all_goals first
    | (injection hk with hk; rw [← hk]; norm_num)
    | exact absurd hk (by simp)

/-- Core of C2: with a table distance d ≥ 1, the split-then-invert
roundtrip loses between 0 and 1 second of the pace. -/
theorem race_roundtrip_core (key : String) (d : ℚ)
    (hk : List.lookup key RACE_DISTANCES = some d) (hd : 1 ≤ d)
    (m s : ℤ) (hm : 0 ≤ m) (hs : 0 ≤ s) (hs60 : s < 60)
    (hne : ¬(m = 0 ∧ s = 0)) :
    0 ≤ (m * 60 + s) - ((race_roundtrip_result key d m s).1 * 60 +
        (race_roundtrip_result key d m s).2) ∧
    (m * 60 + s) - ((race_roundtrip_result key d m s).1 * 60 +
        (race_roundtrip_result key d m s).2) ≤ 1 := by
  have hd0 : (0 : ℚ) < d := by linarith
  have hS1 : 1 ≤ m * 60 + s := by omega
  have hSq : (1 : ℚ) ≤ ((m * 60 + s : ℤ) : ℚ) := by exact_mod_cast hS1
  set T : ℚ := ((m * 60 + s : ℤ) : ℚ) * d with hT
  have hT1 : (1 : ℚ) ≤ T := by nlinarith
  have hfT1 : 1 ≤ ⌊T⌋ := Int.le_floor.mpr (by push_cast; linarith)
  have hsum := split_race_time_sum T
  have hres : race_roundtrip_result key d m s =
      (⌊(⌊T⌋ : ℚ) / d / 60⌋, ⌊(⌊T⌋ : ℚ) / d⌋ - 60 * ⌊(⌊T⌋ : ℚ) / d / 60⌋) := by
    unfold race_roundtrip_result race_time_to_pace
    rw [← hT, hk]
    show (if (split_race_time T).1 * 3600 + (split_race_time T).2.1 * 60 +
        (split_race_time T).2.2 ≤ 0 ∨ d ≤ 0 then ((0 : ℤ), (0 : ℤ))
      else (pyInt (pyFloorDiv
          ((((split_race_time T).1 * 3600 + (split_race_time T).2.1 * 60 +
            (split_race_time T).2.2 : ℤ) : ℚ) / d) 60),
        pyInt (pyMod
          ((((split_race_time T).1 * 3600 + (split_race_time T).2.1 * 60 +
            (split_race_time T).2.2 : ℤ) : ℚ) / d) 60))) = _
    rw [hsum, if_neg (by push_neg; exact ⟨by omega, hd0⟩),
      pyInt_pyFloorDiv, pyInt_pyMod_sixty]
  rw [hres]
  set spk : ℚ := (⌊T⌋ : ℚ) / d with hspk
  have hR : ⌊spk / 60⌋ * 60 + (⌊spk⌋ - 60 * ⌊spk / 60⌋) = ⌊spk⌋ := by ring
  have hub : ⌊spk⌋ ≤ m * 60 + s := by
    have h1 : spk ≤ ((m * 60 + s : ℤ) : ℚ) := by
      rw [hspk, div_le_iff₀ hd0]
      calc ((⌊T⌋ : ℤ) : ℚ) ≤ T := Int.floor_le T
      _ = ((m * 60 + s : ℤ) : ℚ) * d := hT
    calc ⌊spk⌋ ≤ ⌊((m * 60 + s : ℤ) : ℚ)⌋ := Int.floor_le_floor h1
    _ = m * 60 + s := Int.floor_intCast _
  have hlb : m * 60 + s - 1 ≤ ⌊spk⌋ := by
    apply Int.le_floor.mpr
    rw [hspk, le_div_iff₀ hd0]
    have h2 : T < (⌊T⌋ : ℚ) + 1 := Int.lt_floor_add_one T
    have hT2 : T = ((m : ℚ) * 60 + (s : ℚ)) * d := by
      rw [hT]
      push_cast
      ring
    push_cast
    nlinarith [h2, hT2, hd]
  constructor <;> (simp only [hR]; omega)

/-- Claim C2: for every distance key in the static table and every valid
pace (m, s), computing the exact total race time, splitting it into an
(hours, minutes, seconds) triple as the request handlers do, and feeding
it back through `race_time_to_pace` returns the pace up to a truncation
loss of at most one second, never overstating the pace; in particular a
0h25min0s 5K maps back to a 5:00 min/km pace. -/
theorem claim_C2_race_time_roundtrip :
    (∀ (key : String) (d : ℚ), List.lookup key RACE_DISTANCES = some d →
      ∀ m s : ℤ, 0 ≤ m → 0 ≤ s → s < 60 → ¬(m = 0 ∧ s = 0) →
      0 ≤ (m * 60 + s) - ((race_roundtrip_result key d m s).1 * 60 +
          (race_roundtrip_result key d m s).2) ∧
      (m * 60 + s) - ((race_roundtrip_result key d m s).1 * 60 +
          (race_roundtrip_result key d m s).2) ≤ 1) ∧
    race_time_to_pace "fivek" 0 25 0 = (5, 0) := by
  constructor
  · intro key d hk m s hm hs hs60 hne
    exact race_roundtrip_core key d hk (race_distances_ge_one key d hk)
      m s hm hs hs60 hne
  · rw [race_time_to_pace,
      show List.lookup "fivek" RACE_DISTANCES = some 5.0 from rfl]
    norm_num [pyInt_pyFloorDiv, pyInt_pyMod_sixty]

/-- Witness for C2: a 4:30 min/km pace over the 1 km distance. -/
theorem claim_C2_race_time_roundtrip_witness :
    0 ≤ (4 * 60 + 30) - ((race_roundtrip_result "onek" 1 4 30).1 * 60 +
        (race_roundtrip_result "onek" 1 4 30).2) ∧
    (4 * 60 + 30) - ((race_roundtrip_result "onek" 1 4 30).1 * 60 +
        (race_roundtrip_result "onek" 1 4 30).2) ≤ 1 :=
  claim_C2_race_time_roundtrip.1 "onek" 1
    (by rw [show List.lookup "onek" RACE_DISTANCES = some 1.0 from rfl]
        norm_num)
    4 30 (by norm_num) (by norm_num) (by norm_num) (by decide)

/-! ### C9: the per-distance finish-time table -/

/-- Claim C9: for the (0,0) pace every static distance key maps to
"0h0min0s"; for a non-zero pace every static distance key maps to the
`format_time`-rendering (truncating division at each unit, no padding) of
(minutes*60+seconds) times its distance constant; in particular a 5:00
min/km pace gives "0h25min0s" for the 5K. -/
theorem claim_C9_race_times_table :
    (∀ cd : ℚ,
      List.lookup "onek" (calculate_race_times 0 0 cd) = some "0h0min0s" ∧
      List.lookup "threek" (calculate_race_times 0 0 cd) = some "0h0min0s" ∧
      List.lookup "fivek" (calculate_race_times 0 0 cd) = some "0h0min0s" ∧
      List.lookup "tenk" (calculate_race_times 0 0 cd) = some "0h0min0s" ∧
      List.lookup "twentyk" (calculate_race_times 0 0 cd) = some "0h0min0s" ∧
      List.lookup "half" (calculate_race_times 0 0 cd) = some "0h0min0s" ∧
      List.lookup "marathon" (calculate_race_times 0 0 cd) = some "0h0min0s" ∧
      List.lookup "hundredk" (calculate_race_times 0 0 cd) = some "0h0min0s") ∧
    (∀ m s : ℤ, ¬(m = 0 ∧ s = 0) → ∀ cd : ℚ,
      List.lookup "onek" (calculate_race_times m s cd) =
        some (format_time (((m * 60 + s : ℤ) : ℚ) * 1.0)) ∧
      List.lookup "threek" (calculate_race_times m s cd) =
        some (format_time (((m * 60 + s : ℤ) : ℚ) * 3.0)) ∧
      List.lookup "fivek" (calculate_race_times m s cd) =
        some (format_time (((m * 60 + s : ℤ) : ℚ) * 5.0)) ∧
      List.lookup "tenk" (calculate_race_times m s cd) =
        some (format_time (((m * 60 + s : ℤ) : ℚ) * 10.0)) ∧
      List.lookup "twentyk" (calculate_race_times m s cd) =
        some (format_time (((m * 60 + s : ℤ) : ℚ) * 20.0)) ∧
      List.lookup "half" (calculate_race_times m s cd) =
        some (format_time (((m * 60 + s : ℤ) : ℚ) * 21.0975)) ∧
      List.lookup "marathon" (calculate_race_times m s cd) =
        some (format_time (((m * 60 + s : ℤ) : ℚ) * 42.195)) ∧
      List.lookup "hundredk" (calculate_race_times m s cd) =
        some (format_time (((m * 60 + s : ℤ) : ℚ) * 100.0))) ∧
    List.lookup "fivek" (calculate_race_times 5 0 0) = some "0h25min0s" := by
  refine ⟨fun cd => ?_, fun m s hne cd => ?_, ?_⟩
  · exact ⟨rfl, rfl, rfl, rfl, rfl, rfl, rfl, rfl⟩
  · unfold calculate_race_times
    rw [if_neg hne]
    exact ⟨rfl, rfl, rfl, rfl, rfl, rfl, rfl, rfl⟩
  · rw [calculate_race_times]
    norm_num [RACE_DISTANCES, format_time, pyInt_pyFloorDiv,
      pyInt_pyMod_sixty, pyMod, pyFloorDiv, pyInt]
    rfl

/-- Witness for C9 at pace 6:10 min/km. -/
theorem claim_C9_race_times_table_witness :
    List.lookup "onek" (calculate_race_times 6 10 0) =
      some (format_time (((6 * 60 + 10 : ℤ) : ℚ) * 1.0)) :=
  (claim_C9_race_times_table.2.1 6 10 (by decide) 0).1

/-! ### C10: the ninth, dynamic 'custom' entry -/

/-- Claim C10: for a non-zero pace the returned table has a ninth key
'custom' — the formatted time for `custom_distance` when that is positive
and "0h0min0s" otherwise — while for the (0,0) pace the table consists of
exactly the eight static keys and has no 'custom' entry. -/
theorem claim_C10_custom_entry :
    (∀ m s : ℤ, ¬(m = 0 ∧ s = 0) → ∀ cd : ℚ,
      List.lookup "custom" (calculate_race_times m s cd) =
        some (if 0 < cd then format_time (((m * 60 + s : ℤ) : ℚ) * cd)
              else "0h0min0s")) ∧
    (∀ cd : ℚ,
      List.lookup "custom" (calculate_race_times 0 0 cd) = none ∧
      (calculate_race_times 0 0 cd).map Prod.fst =
        RACE_DISTANCES.map Prod.fst) := by
  refine ⟨fun m s hne cd => ?_, fun cd => ⟨rfl, rfl⟩⟩
  unfold calculate_race_times
  rw [if_neg hne]
  rfl

/-- Witness for C10 with a positive custom distance of 2 km. -/
theorem claim_C10_custom_entry_witness :
    List.lookup "custom" (calculate_race_times 5 0 2) =
      some (if (0 : ℚ) < 2 then format_time (((5 * 60 + 0 : ℤ) : ℚ) * 2)
            else "0h0min0s") :=
  claim_C10_custom_entry.1 5 0 (by decide) 2

/-! ### C3: validators reject malformed input and never raise -/

set_option maxHeartbeats 1600000 in
/-- Claim C3: the validators are total functions (modelled as plain Lean
functions, so no uncaught exception is possible) whose every outcome is
either an acceptance with empty error message or a rejection with no
value and a non-empty error message; and on the malformed inputs
"12.3.4" (multiple dots) and "1-2" (misplaced sign) every numeric field
of every validator yields a rejection. -/
theorem claim_C3_validators_reject_malformed :
    (∀ x y : Option String,
      isRejection (validate_pace_input x y) ∨
      ((validate_pace_input x y).1 = true ∧
        (validate_pace_input x y).2.2 = "")) ∧
    (∀ x : Option String,
      isRejection (validate_speed_input x) ∨
      ((validate_speed_input x).1 = true ∧
        (validate_speed_input x).2.2 = "")) ∧
    (∀ x y z : Option String,
      isRejection (validate_race_time_input x y z) ∨
      ((validate_race_time_input x y z).1 = true ∧
        (validate_race_time_input x y z).2.2 = "")) ∧
    isRejection (validate_pace_input (some "12.3.4") (some "30")) ∧
    isRejection (validate_pace_input (some "30") (some "12.3.4")) ∧
    isRejection (validate_pace_input (some "1-2") (some "30")) ∧
    isRejection (validate_pace_input (some "30") (some "1-2")) ∧
    isRejection (validate_speed_input (some "12.3.4")) ∧
    isRejection (validate_speed_input (some "1-2")) ∧
    isRejection (validate_race_time_input (some "12.3.4") (some "1") (some "1")) ∧
    isRejection (validate_race_time_input (some "1") (some "12.3.4") (some "1")) ∧
    isRejection (validate_race_time_input (some "1") (some "1") (some "12.3.4")) ∧
    isRejection (validate_race_time_input (some "1-2") (some "1") (some "1")) ∧
    isRejection (validate_race_time_input (some "1") (some "1-2") (some "1")) ∧
    isRejection (validate_race_time_input (some "1") (some "1") (some "1-2")) := by
  refine ⟨fun x y => ?_, fun x => ?_, fun x y z => ?_, by decide, by decide,
    by decide, by decide, by decide, by decide, by decide, by decide,
    by decide, by decide, by decide, by decide⟩
  · simp only [validate_pace_input]
    repeat' split
    all_goals first
      | exact Or.inl ⟨rfl, rfl, by decide⟩
      | exact Or.inr ⟨rfl, rfl⟩
  · simp only [validate_speed_input]
    repeat' split
    all_goals first
      | exact Or.inl ⟨rfl, rfl, by decide⟩
      | exact Or.inr ⟨rfl, rfl⟩
  · simp only [validate_race_time_input]
    repeat' split
    all_goals first
      | exact Or.inl ⟨rfl, rfl, by decide⟩
      | exact Or.inr ⟨rfl, rfl⟩

/-! ### C5: validators reject out-of-range values -/

/-- Claim C5: the validators reject out-of-range parsed values with no
value and a non-empty error: pace with seconds 60, minutes 121, or the
zero pace; speed 51 and every non-positive speed; race time with hours
13, minutes or seconds 60, or the all-zero triple. -/
theorem claim_C5_validators_reject_out_of_range :
    isRejection (validate_pace_input (some "5") (some "60")) ∧
    isRejection (validate_pace_input (some "121") (some "30")) ∧
    isRejection (validate_pace_input (some "0") (some "0")) ∧
    isRejection (validate_speed_input (some "51")) ∧
    (∀ (x : Option String) (q : ℚ),
      parsePyFloat (sanitize_field x) = some q → q ≤ 0 →
      isRejection (validate_speed_input x)) ∧
    isRejection (validate_race_time_input (some "13") (some "0") (some "0")) ∧
    isRejection (validate_race_time_input (some "0") (some "60") (some "0")) ∧
    isRejection (validate_race_time_input (some "0") (some "0") (some "60")) ∧
    isRejection (validate_race_time_input (some "0") (some "0") (some "0")) := by
  refine ⟨by decide, by decide, by decide, by decide, fun x q hp hq => ?_,
    by decide, by decide, by decide, by decide⟩
  simp only [validate_speed_input]
  rw [hp]
  dsimp only
  repeat' split
  all_goals exact ⟨rfl, rfl, by decide⟩

/-- Witness for C5 at the negative speed string "-3". -/
theorem claim_C5_validators_reject_out_of_range_witness :
    isRejection (validate_speed_input (some "-3")) :=
  claim_C5_validators_reject_out_of_range.2.2.2.2.1 (some "-3") (-3)
    (by decide) (by decide)

/-! ### C4: empty/absent defaulting and the whitespace-only corner -/

/-- Counterexample to C4: a whitespace-only input is NOT validated
identically to "0" — the default to "0" happens before stripping, so
"   " strips to "" and fails numeric parsing with the generic message,
while "0" parses and is rejected as non-positive. -/
theorem claim_C4_counterexample :
    validate_speed_input (some "   ") ≠ validate_speed_input (some "0") := by
  decide

/-- Amended C4: an absent (None) or empty input string is validated
identically to "0" in every field of every validator, because `x or "0"`
substitutes before stripping; a whitespace-only string, however, strips
to the empty string after that substitution, so it is rejected with the
generic invalid-number message instead of being validated like "0". -/
theorem claim_C4_empty_default_amended :
    (∀ y : Option String,
      validate_pace_input none y = validate_pace_input (some "0") y ∧
      validate_pace_input (some "") y = validate_pace_input (some "0") y ∧
      validate_pace_input y none = validate_pace_input y (some "0") ∧
      validate_pace_input y (some "") = validate_pace_input y (some "0")) ∧
    (validate_speed_input none = validate_speed_input (some "0") ∧
     validate_speed_input (some "") = validate_speed_input (some "0")) ∧
    (∀ y z : Option String,
      validate_race_time_input none y z =
        validate_race_time_input (some "0") y z ∧
      validate_race_time_input (some "") y z =
        validate_race_time_input (some "0") y z ∧
      validate_race_time_input y none z =
        validate_race_time_input y (some "0") z ∧
      validate_race_time_input y (some "") z =
        validate_race_time_input y (some "0") z ∧
      validate_race_time_input y z none =
        validate_race_time_input y z (some "0") ∧
      validate_race_time_input y z (some "") =
        validate_race_time_input y z (some "0")) ∧
    validate_speed_input (some "   ") =
      (false, none, "Invalid input: please enter a valid number") ∧
    validate_speed_input (some "0") = (false, none, "Speed must be positive") ∧
    validate_pace_input (some " ") (some "30") =
      (false, none, "Invalid input: please enter valid numbers") ∧
    validate_race_time_input (some " ") (some "1") (some "1") =
      (false, none, "Invalid input: please enter valid numbers") := by
  have h0 : sanitize_field none = sanitize_field (some "0") := rfl
  have h1 : sanitize_field (some "") = sanitize_field (some "0") := rfl
  refine ⟨fun y => ⟨?_, ?_, ?_, ?_⟩, ⟨?_, ?_⟩,
    fun y z => ⟨?_, ?_, ?_, ?_, ?_, ?_⟩, by decide, by decide, by decide,
    by decide⟩ <;>
    first
      | (unfold validate_pace_input; rw [h0])
      | (unfold validate_pace_input; rw [h1])
      | (unfold validate_speed_input; rw [h0])
      | (unfold validate_speed_input; rw [h1])
      | (unfold validate_race_time_input; rw [h0])
      | (unfold validate_race_time_input; rw [h1])
